import Mathlib

/-!
# kissan-chain-backend: sign-up and login handlers

A shallow embedding of `src/main.go`.  The program keeps one SQLite table
`users (id, username UNIQUE, password)` behind the global handle `db`, and
serves two HTTP handlers, `signUpHandler` and `loginHandler`, which hash and
verify passwords with `golang.org/x/crypto/bcrypt`.

Conventions of the embedding

* The global `db` handle becomes an explicit value of type `DB` that each
  handler receives and returns.
* The effects a handler cannot control are explicit arguments: the state of
  the randomness source read by the hasher (`Entropy`) and the failure, if
  any, that the storage engine reports for the handler's single statement
  for reasons other than the schema's constraints (`fault`).
* The bcrypt package is a parameter (`Bcrypt`): the handlers are embedded for
  every behaviour of the two library functions they call.
* A response is its status code and body; the server-side log is kept as a
  list of structured lines next to it.
-/

namespace KissanChain

/-! ## Data model -/

/-- User structure (`main.go:15-18`): the JSON payload of both handlers. -/
structure User where
  Username : String
  Password : String
deriving DecidableEq, Repr

/-- One row of the `users` table (`main.go:32-36`).  The `id` column is
assigned by the engine and never read by the program; it is left out. -/
structure Row where
  username : String
  password : String
deriving DecidableEq, Repr

/-- The contents of the `users` table, oldest row first. -/
abbrev DB := List Row

/-- An HTTP request as the handlers see it: the method, and what
`json.NewDecoder(r.Body).Decode(&user)` yields for the body (`none` when the
decoder returns an error). -/
structure Request where
  Method : String
  Body : Option User
deriving DecidableEq, Repr

/-- What is written to the `http.ResponseWriter`: status code and body. -/
structure Response where
  status : Nat
  body : String
deriving DecidableEq, Repr

/-- Why `db.Exec` of the INSERT statement failed. -/
inductive ExecError where
  /-- the UNIQUE constraint on `users.username` rejected the row -/
  | uniqueViolation
  /-- any other failure reported by the engine (I/O, lock, connectivity) -/
  | fault (msg : String)
deriving DecidableEq, Repr

/-- The result of `db.QueryRow(query, username).Scan(&hashedPassword)`. -/
inductive ScanResult where
  /-- a row was found; its `password` column -/
  | row (password : String)
  /-- `sql.ErrNoRows` -/
  | errNoRows
  /-- any other error -/
  | fault (msg : String)
deriving DecidableEq, Repr

/-- The `log.Printf` calls of the two handlers, format string and arguments. -/
inductive LogLine where
  /-- `"Failed to save user %s: %v"` -/
  | failedToSave (username : String) (err : ExecError)
  /-- `"No such user %s: %v"` (the error is `sql.ErrNoRows`) -/
  | noSuchUser (username : String)
  /-- `"Query error for user %s: %v"` -/
  | queryError (username : String) (err : String)
  /-- `"Password mismatch for user %s"` -/
  | passwordMismatch (username : String)
deriving DecidableEq, Repr

/-- Everything a handler emits: the response and the log lines. -/
structure Output where
  resp : Response
  log : List LogLine
deriving DecidableEq, Repr

/-- What the randomness source yields when the hasher reads it: `none` when
the read fails, otherwise the number drawn. -/
abbrev Entropy := Option Nat

/-- The two functions and the constant of `golang.org/x/crypto/bcrypt` that
`main.go` uses.  Errors are represented by their message. -/
structure Bcrypt where
  /-- `bcrypt.DefaultCost` -/
  DefaultCost : Nat
  /-- `bcrypt.GenerateFromPassword(password, cost)`: the hash and the error -/
  GenerateFromPassword : (password : String) → (cost : Nat) → Entropy → String × Option String
  /-- `bcrypt.CompareHashAndPassword(hashedPassword, password)`: the error -/
  CompareHashAndPassword : (hashedPassword : String) → (password : String) → Option String

/-! ## net/http constants and helpers -/

def MethodPost : String := "POST"
def StatusOK : Nat := 200
def StatusCreated : Nat := 201
def StatusBadRequest : Nat := 400
def StatusUnauthorized : Nat := 401
def StatusNotFound : Nat := 404
def StatusMethodNotAllowed : Nat := 405
def StatusInternalServerError : Nat := 500

/-- `http.Error(w, msg, code)`: the status code, and the message followed by a
newline. -/
def httpError (msg : String) (code : Nat) : Response :=
  { status := code, body := msg ++ "\n" }

/-! ## Storage engine -/

/-- `db.Exec("INSERT INTO users (username, password) VALUES (?, ?)", u, h)`
against the schema of `initDB`: `username` is UNIQUE, so the statement is
rejected when a row with that username exists; a statement that fails leaves
the table as it was. -/
def dbExecInsert (fault : Option String) (db : DB) (username password : String) :
    DB × Option ExecError :=
  match fault with
  | some msg => (db, some (ExecError.fault msg))
  | none =>
    if db.any (fun row => row.username == username) then
      (db, some ExecError.uniqueViolation)
    else
      (db ++ [{ username := username, password := password }], none)

/-- `db.QueryRow("SELECT password FROM users WHERE username = ?", u).Scan(&h)`. -/
def dbQueryRowScan (fault : Option String) (db : DB) (username : String) : ScanResult :=
  match fault with
  | some msg => ScanResult.fault msg
  | none =>
    match db.find? (fun row => row.username == username) with
    | some row => ScanResult.row row.password
    | none => ScanResult.errNoRows

/-! ## The program -/

/-- Initialize the database (`main.go:23-41`): open `./users.db` and create the
`users` table if it does not exist.  `file` is the table found in the file,
if there is one; the result is the table the handlers start from, or `none`
when opening or creating fails and the process exits (`log.Fatalf`). -/
def initDB (fault : Option String) (file : Option DB) : Option DB :=
  match fault with
  | some _ => none
  | none => some (file.getD [])

/-- Hash a password (`main.go:44-47`). -/
def hashPassword (B : Bcrypt) (rng : Entropy) (password : String) : String × Option String :=
  B.GenerateFromPassword password B.DefaultCost rng

/-- Verify a password (`main.go:50-53`): `err == nil`. -/
def checkPasswordHash (B : Bcrypt) (password hash : String) : Bool :=
  (B.CompareHashAndPassword hash password).isNone

/-- Sign-up handler (`main.go:56-89`). -/
def signUpHandler (B : Bcrypt) (rng : Entropy) (fault : Option String) (db : DB)
    (r : Request) : DB × Output :=
  if r.Method ≠ MethodPost then
    (db, { resp := httpError "Invalid request method" StatusMethodNotAllowed, log := [] })
  else
    match r.Body with
    | none => (db, { resp := httpError "Invalid input" StatusBadRequest, log := [] })
    | some user =>
      match hashPassword B rng user.Password with
      | (_, some _) =>
        (db, { resp := httpError "Error hashing password" StatusInternalServerError,
               log := [] })
      | (hashedPassword, none) =>
        match dbExecInsert fault db user.Username hashedPassword with
        | (db', some err) =>
          (db', { resp := httpError "Error saving user" StatusInternalServerError,
                  log := [LogLine.failedToSave user.Username err] })
        | (db', none) =>
          (db', { resp := { status := StatusCreated,
                            body := "User " ++ user.Username ++ " created successfully" },
                  log := [] })

/-- Login handler (`main.go:92-130`). -/
def loginHandler (B : Bcrypt) (fault : Option String) (db : DB) (r : Request) :
    DB × Output :=
  if r.Method ≠ MethodPost then
    (db, { resp := httpError "Invalid request method" StatusMethodNotAllowed, log := [] })
  else
    match r.Body with
    | none => (db, { resp := httpError "Invalid input" StatusBadRequest, log := [] })
    | some req =>
      match dbQueryRowScan fault db req.Username with
      | ScanResult.errNoRows =>
        (db, { resp := httpError "User not found" StatusNotFound,
               log := [LogLine.noSuchUser req.Username] })
      | ScanResult.fault msg =>
        (db, { resp := httpError "Database error" StatusInternalServerError,
               log := [LogLine.queryError req.Username msg] })
      | ScanResult.row hashedPassword =>
        if !checkPasswordHash B req.Password hashedPassword then
          (db, { resp := httpError "Invalid credentials" StatusUnauthorized,
                 log := [LogLine.passwordMismatch req.Username] })
        else
          (db, { resp := { status := StatusOK,
                           body := "Welcome, " ++ req.Username ++ "!" },
                 log := [] })

/-! ## Dispatch and runs -/

/-- The two handlers registered in `main` (`main.go:138-139`). -/
inductive Route where
  /-- `/signup` -/
  | signup
  /-- `/login` -/
  | login
deriving DecidableEq, Repr

/-- One request served by the process: the handler the mux dispatches it to,
the request, and the environment met while serving it. -/
structure Call where
  route : Route
  rng : Entropy
  fault : Option String
  req : Request

/-- Serve one request. -/
def serve (B : Bcrypt) (db : DB) (c : Call) : DB × Output :=
  match c.route with
  | Route.signup => signUpHandler B c.rng c.fault db c.req
  | Route.login => loginHandler B c.fault db c.req

/-- The table after serving a sequence of requests one after the other. -/
def run (B : Bcrypt) (db : DB) (calls : List Call) : DB :=
  calls.foldl (fun d c => (serve B d c).1) db

/-- The stored hash the table holds for a username, if any. -/
def lookup (db : DB) (username : String) : Option String :=
  (db.find? (fun row => row.username == username)).map Row.password

/-- A POST request whose body decodes to the given credentials. -/
def post (username password : String) : Request :=
  { Method := MethodPost, Body := some { Username := username, Password := password } }

/-! ## The hasher, from its contract -/

/-- Modelled from the spec: the cost factor of the hasher, a named constant
(spec 4.1); `golang.org/x/crypto/bcrypt`, where `DefaultCost` is declared, is
not under `src/`. -/
def costFactor : Nat := 10

/-- Modelled from the spec: the maximum input length of the hasher in bytes
(spec 4.1, "exceeds the algorithm's maximum input length"); the bcrypt
package is not under `src/`. -/
def maxInputLength : Nat := 72

/-- Modelled from the spec: the alphabet in which salt and digest are written
in the hash string; the bcrypt package is not under `src/`. -/
def radix64 : List Char :=
  "./ABCDEFGHIJKLMNOPQRSTUVWXYZabcdefghijklmnopqrstuvwxyz0123456789".toList

/-- Modelled from the spec: the salt drawn for one call, written as 22
characters of the alphabet (spec 4.1, "random salt per call"); the bcrypt
package is not under `src/`. -/
def encodeSalt (n : Nat) : List Char :=
  (List.range 22).map (fun i => radix64.getD (n / 64 ^ i % 64) '.')

/-- Modelled from the spec: the cost parameter as it is embedded in the hash
string, two decimal digits; the bcrypt package is not under `src/`. -/
def encodeCost (cost : Nat) : List Char :=
  [Char.ofNat (48 + cost / 10 % 10), Char.ofNat (48 + cost % 10)]

/-- Modelled from the spec: reading the cost parameter back from the hash
string; the bcrypt package is not under `src/`. -/
def decodeCost (c1 c2 : Char) : Option Nat :=
  if c1.isDigit && c2.isDigit then some ((c1.toNat - 48) * 10 + (c2.toNat - 48)) else none

/-- Modelled from the spec: the slow salted one-way function at the heart of
the hasher (spec 4.1, "Algorithm"), from plaintext, cost and salt to digest.
It is left open; the bcrypt package is not under `src/`. -/
abbrev Digest := String → Nat → List Char → List Char

/-- Modelled from the spec: `hash` of spec 4.1 in the shape of
`bcrypt.GenerateFromPassword`, which is not under `src/`.  It produces a
self-describing string encoding algorithm identifier, cost parameter, salt
and digest, with a fresh salt per call, and fails when the plaintext exceeds
the maximum input length or when randomness is unavailable; a cost that does
not fit the two digits of the format is refused as well.  On failure the
hash returned next to the error is empty. -/
def specGenerateFromPassword (digest : Digest) (password : String) (cost : Nat)
    (rng : Entropy) : String × Option String :=
  if maxInputLength < password.utf8ByteSize then
    ("", some "password length exceeds the maximum input length")
  else if 100 ≤ cost then
    ("", some "invalid cost")
  else
    match rng with
    | none => ("", some "secure randomness is unavailable")
    | some n =>
      let salt := encodeSalt n
      (String.mk ('$' :: '2' :: 'a' :: '$' :: (encodeCost cost ++ '$' :: (salt ++
        digest password cost salt))), none)

/-- Modelled from the spec: `verify` of spec 4.1 in the shape of
`bcrypt.CompareHashAndPassword`, which is not under `src/`.  It recomputes
the digest with the salt and cost parameter embedded in the stored hash and
accepts only an exact digest match; a stored hash that is not well formed is
answered with an error, never with a crash. -/
def specCompareHashAndPassword (digest : Digest) (hashedPassword password : String) :
    Option String :=
  match hashedPassword.data with
  | '$' :: '2' :: 'a' :: '$' :: c1 :: c2 :: '$' :: rest =>
    match decodeCost c1 c2 with
    | none => some "malformed hash: cost"
    | some cost =>
      if rest.length < 22 then some "malformed hash: too short"
      else if digest password cost (rest.take 22) = rest.drop 22 then none
      else some "hashedPassword is not the hash of the given password"
  | _ => some "malformed hash: header"

/-- Modelled from the spec: the hasher of spec 4.1 packaged as the bcrypt
package that `main.go` imports and that is not under `src/`. -/
def specBcrypt (digest : Digest) : Bcrypt :=
  { DefaultCost := costFactor
    GenerateFromPassword := specGenerateFromPassword digest
    CompareHashAndPassword := specCompareHashAndPassword digest }

/-- A stand-in for the one-way function, used to evaluate the hasher on
concrete inputs: the salt reversed, then the plaintext. -/
def sampleDigest : Digest := fun password _ salt => salt.reverse ++ password.data

/-- A plaintext of 73 bytes, one more than the hasher accepts. -/
def longPassword : String := String.mk (List.replicate 73 'a')

/-! ## Sample values -/

/-- The hasher with the stand-in one-way function. -/
def sampleBcrypt : Bcrypt := specBcrypt sampleDigest

/-- A table holding one record, for "alice". -/
def aliceStore : DB := [{ username := "alice", password := "h1" }]

/-- The table after "alice" signed up with password "pw1" on an empty table. -/
def aliceSignedUp : DB :=
  (signUpHandler sampleBcrypt (some 1) none [] (post "alice" "pw1")).1

/-! # Theorems -/

theorem initDB_fresh : initDB none none = some [] := rfl

/-! ## Basic facts about the storage engine -/

theorem lookup_eq_none_iff (db : DB) (u : String) :
    lookup db u = none ↔ db.any (fun row => row.username == u) = false := by
  simp [lookup]

theorem dbQueryRowScan_none (db : DB) (u : String) :
    dbQueryRowScan none db u =
      match lookup db u with
      | some h => ScanResult.row h
      | none => ScanResult.errNoRows := by
  unfold dbQueryRowScan lookup
  cases db.find? (fun row => row.username == u) <;> rfl

theorem dbExecInsert_fresh (db : DB) (u h : String)
    (hfresh : db.any (fun row => row.username == u) = false) :
    dbExecInsert none db u h = (db ++ [{ username := u, password := h }], none) := by
  simp [dbExecInsert, hfresh]

theorem dbExecInsert_duplicate (db : DB) (u h : String)
    (hdup : db.any (fun row => row.username == u) = true) :
    dbExecInsert none db u h = (db, some ExecError.uniqueViolation) := by
  simp [dbExecInsert, hdup]

theorem dbExecInsert_fault (msg : String) (db : DB) (u h : String) :
    dbExecInsert (some msg) db u h = (db, some (ExecError.fault msg)) := rfl

/-- An INSERT either fails and leaves the table as it was, or succeeds, and
then there was no fault, the username was fresh and one row was appended. -/
theorem dbExecInsert_cases (fault : Option String) (db : DB) (u h : String) :
    (∃ e, dbExecInsert fault db u h = (db, some e) ∧
        (fault = none → db.any (fun row => row.username == u) = true)) ∨
    (fault = none ∧ db.any (fun row => row.username == u) = false ∧
      dbExecInsert fault db u h = (db ++ [{ username := u, password := h }], none)) := by
  cases fault with
  | some msg => exact Or.inl ⟨_, rfl, fun h => by cases h⟩
  | none =>
    cases hany : db.any (fun row => row.username == u) with
    | true => exact Or.inl ⟨_, dbExecInsert_duplicate db u h hany, fun _ => rfl⟩
    | false => exact Or.inr ⟨rfl, rfl, dbExecInsert_fresh db u h hany⟩

/-! ## The handlers, path by path -/

theorem signUpHandler_wrong_method (B : Bcrypt) (rng : Entropy) (fault : Option String)
    (db : DB) (r : Request) (hm : r.Method ≠ MethodPost) :
    signUpHandler B rng fault db r =
      (db, { resp := httpError "Invalid request method" StatusMethodNotAllowed,
             log := [] }) := by
  simp [signUpHandler, hm]

theorem signUpHandler_undecodable (B : Bcrypt) (rng : Entropy) (fault : Option String)
    (db : DB) (r : Request) (hm : r.Method = MethodPost) (hb : r.Body = none) :
    signUpHandler B rng fault db r =
      (db, { resp := httpError "Invalid input" StatusBadRequest, log := [] }) := by
  simp [signUpHandler, hm, hb]

theorem signUpHandler_hash_error (B : Bcrypt) (rng : Entropy) (fault : Option String)
    (db : DB) (r : Request) (user : User) (e : String) (hm : r.Method = MethodPost)
    (hb : r.Body = some user) (hh : (hashPassword B rng user.Password).2 = some e) :
    signUpHandler B rng fault db r =
      (db, { resp := httpError "Error hashing password" StatusInternalServerError,
             log := [] }) := by
  rcases hp : hashPassword B rng user.Password with ⟨hashed, err⟩
  rw [hp] at hh
  cases hh
  simp [signUpHandler, hm, hb, hp]

theorem signUpHandler_hashed (B : Bcrypt) (rng : Entropy) (fault : Option String)
    (db : DB) (r : Request) (user : User) (hm : r.Method = MethodPost)
    (hb : r.Body = some user) (hh : (hashPassword B rng user.Password).2 = none) :
    signUpHandler B rng fault db r =
      match dbExecInsert fault db user.Username (hashPassword B rng user.Password).1 with
      | (db', some err) =>
        (db', { resp := httpError "Error saving user" StatusInternalServerError,
                log := [LogLine.failedToSave user.Username err] })
      | (db', none) =>
        (db', { resp := { status := StatusCreated,
                          body := "User " ++ user.Username ++ " created successfully" },
                log := [] }) := by
  rcases hp : hashPassword B rng user.Password with ⟨hashed, err⟩
  rw [hp] at hh
  cases hh
  simp [signUpHandler, hm, hb, hp]

/-- Every run of the sign-up handler ends in one of two ways: the table is
untouched and the status is 405, 400 or 500; or hashing succeeded, the
engine reported no fault, the username was fresh, one row was appended and
the status is 201. -/
theorem signUpHandler_cases (B : Bcrypt) (rng : Entropy) (fault : Option String)
    (db : DB) (r : Request) :
    ((signUpHandler B rng fault db r).1 = db ∧
      ((signUpHandler B rng fault db r).2.resp.status = StatusMethodNotAllowed ∨
       (signUpHandler B rng fault db r).2.resp.status = StatusBadRequest ∨
       (signUpHandler B rng fault db r).2.resp.status = StatusInternalServerError)) ∨
    (∃ user, r.Method = MethodPost ∧ r.Body = some user ∧
      (hashPassword B rng user.Password).2 = none ∧ fault = none ∧
      db.any (fun row => row.username == user.Username) = false ∧
      signUpHandler B rng fault db r =
        (db ++ [{ username := user.Username,
                  password := (hashPassword B rng user.Password).1 }],
         { resp := { status := StatusCreated,
                     body := "User " ++ user.Username ++ " created successfully" },
           log := [] })) := by
  by_cases hm : r.Method = MethodPost
  · cases hb : r.Body with
    | none =>
      rw [signUpHandler_undecodable B rng fault db r hm hb]
      exact Or.inl ⟨rfl, Or.inr (Or.inl rfl)⟩
    | some user =>
      cases hh : (hashPassword B rng user.Password).2 with
      | some e =>
        rw [signUpHandler_hash_error B rng fault db r user e hm hb hh]
        exact Or.inl ⟨rfl, Or.inr (Or.inr rfl)⟩
      | none =>
        rw [signUpHandler_hashed B rng fault db r user hm hb hh]
        rcases dbExecInsert_cases fault db user.Username
            (hashPassword B rng user.Password).1 with ⟨e, he, _⟩ | ⟨hf, hfresh, he⟩
        · rw [he]
          exact Or.inl ⟨rfl, Or.inr (Or.inr rfl)⟩
        · rw [he]
          exact Or.inr ⟨user, hm, rfl, hh, hf, hfresh, rfl⟩
  · rw [signUpHandler_wrong_method B rng fault db r hm]
    exact Or.inl ⟨rfl, Or.inl rfl⟩

theorem loginHandler_store (B : Bcrypt) (fault : Option String) (db : DB) (r : Request) :
    (loginHandler B fault db r).1 = db := by
  unfold loginHandler
  split
  · rfl
  · split
    · rfl
    · split
      · rfl
      · rfl
      · split <;> rfl

theorem loginHandler_post (B : Bcrypt) (db : DB) (u p : String) :
    loginHandler B none db (post u p) =
      match lookup db u with
      | none =>
        (db, { resp := httpError "User not found" StatusNotFound,
               log := [LogLine.noSuchUser u] })
      | some h =>
        if checkPasswordHash B p h then
          (db, { resp := { status := StatusOK, body := "Welcome, " ++ u ++ "!" },
                 log := [] })
        else
          (db, { resp := httpError "Invalid credentials" StatusUnauthorized,
                 log := [LogLine.passwordMismatch u] }) := by
  simp only [loginHandler, post, ne_eq, not_true_eq_false, ↓reduceIte,
    dbQueryRowScan_none]
  cases lookup db u with
  | none => rfl
  | some h => cases hc : checkPasswordHash B p h <;> simp [hc]

/-! ## Uniqueness of usernames -/

theorem dbExecInsert_nodup (fault : Option String) (db : DB) (u h : String)
    (hn : (db.map Row.username).Nodup) :
    ((dbExecInsert fault db u h).1.map Row.username).Nodup := by
  rcases dbExecInsert_cases fault db u h with ⟨e, he, _⟩ | ⟨_, hfresh, he⟩
  · rw [he]; exact hn
  · rw [he]
    simp only [List.map_append, List.map_cons, List.map_nil]
    refine List.nodup_append.2 ⟨hn, List.nodup_singleton _, ?_⟩
    intro x hx hx'
    simp only [List.mem_singleton] at hx'
    subst hx'
    rcases List.mem_map.1 hx with ⟨row, hrow, hru⟩
    have : db.any (fun row => row.username == x) = true :=
      List.any_eq_true.2 ⟨row, hrow, by simp [hru]⟩
    rw [hfresh] at this
    cases this

theorem signUpHandler_nodup (B : Bcrypt) (rng : Entropy) (fault : Option String)
    (db : DB) (r : Request) (hn : (db.map Row.username).Nodup) :
    ((signUpHandler B rng fault db r).1.map Row.username).Nodup := by
  rcases signUpHandler_cases B rng fault db r with ⟨hs, _⟩ | ⟨user, _, _, _, hf, hfresh, he⟩
  · rw [hs]; exact hn
  · have := dbExecInsert_nodup none db user.Username
      (hashPassword B rng user.Password).1 hn
    rw [dbExecInsert_fresh db _ _ hfresh] at this
    rw [he]; exact this

theorem serve_nodup (B : Bcrypt) (db : DB) (c : Call)
    (hn : (db.map Row.username).Nodup) :
    ((serve B db c).1.map Row.username).Nodup := by
  unfold serve
  cases c.route with
  | signup => exact signUpHandler_nodup B c.rng c.fault db c.req hn
  | login => simpa [loginHandler_store] using hn

theorem run_nodup (B : Bcrypt) (calls : List Call) :
    ∀ db : DB, (db.map Row.username).Nodup → ((run B db calls).map Row.username).Nodup := by
  induction calls with
  | nil => intro db hn; simpa [run] using hn
  | cons c cs ih =>
    intro db hn
    have := ih (serve B db c).1 (serve_nodup B db c hn)
    simpa [run] using this

/-! ## Rows are kept -/

theorem lookup_append_of_some (db : DB) (row : Row) (u h : String)
    (hl : lookup db u = some h) : lookup (db ++ [row]) u = some h := by
  unfold lookup at hl ⊢
  rw [List.find?_append]
  cases hf : db.find? (fun row => row.username == u) with
  | none => rw [hf] at hl; cases hl
  | some r => rw [hf] at hl; simpa using hl

theorem lookup_append_of_none (db : DB) (u h : String)
    (hl : lookup db u = none) :
    lookup (db ++ [{ username := u, password := h }]) u = some h := by
  unfold lookup at hl ⊢
  rw [List.find?_append]
  cases hf : db.find? (fun row => row.username == u) with
  | none => simp [List.find?]
  | some r => rw [hf] at hl; cases hl

/-! ## The hasher -/

theorem encodeSalt_length (n : Nat) : (encodeSalt n).length = 22 := by
  simp [encodeSalt]

theorem decodeCost_encodeCost :
    ∀ cost, cost < 100 →
      decodeCost (Char.ofNat (48 + cost / 10 % 10)) (Char.ofNat (48 + cost % 10)) =
        some cost := by
  decide

theorem specCompare_specGenerate (digest : Digest) (p : String) (cost : Nat)
    (rng : Entropy) (h : String)
    (hg : specGenerateFromPassword digest p cost rng = (h, none)) :
    specCompareHashAndPassword digest h p = none := by
  unfold specGenerateFromPassword at hg
  split at hg
  · cases hg
  · split at hg
    · cases hg
    · rename_i hcost
      cases rng with
      | none => cases hg
      | some n =>
        simp only [Prod.mk.injEq, and_true] at hg
        subst hg
        simp only [specCompareHashAndPassword, encodeCost, List.cons_append,
          List.nil_append, decodeCost_encodeCost cost (by omega)]
        simp [encodeSalt_length, List.take_left']
/-! ## A sign-up for a name that is taken -/

theorem signUpHandler_taken (B : Bcrypt) (rng : Entropy) (fault : Option String)
    (db : DB) (u p : String) (hdup : ∃ row ∈ db, row.username = u) :
    (signUpHandler B rng fault db (post u p)).1 = db ∧
    (signUpHandler B rng fault db (post u p)).2.resp.status =
      StatusInternalServerError := by
  have hany : db.any (fun row => row.username == u) = true := by
    rcases hdup with ⟨row, hrow, hru⟩
    exact List.any_eq_true.2 ⟨row, hrow, by simp [hru]⟩
  cases hh : (hashPassword B rng p).2 with
  | some e =>
    rw [signUpHandler_hash_error B rng fault db (post u p) ⟨u, p⟩ e rfl rfl hh]
    exact ⟨rfl, rfl⟩
  | none =>
    rw [signUpHandler_hashed B rng fault db (post u p) ⟨u, p⟩ rfl rfl hh]
    rcases dbExecInsert_cases fault db u (hashPassword B rng p).1 with
      ⟨e, he, _⟩ | ⟨_, hfresh, _⟩
    · rw [he]; exact ⟨rfl, rfl⟩
    · rw [hany] at hfresh; cases hfresh

/-! ## The claims -/

/-- C1, counterexample.  On a table that already holds "alice", a sign-up for
"alice" is answered with status 500 and body "Error saving user", which is
exactly the response given to a sign-up for a fresh name when the store is
unavailable: the duplicate is not surfaced as a conflict and cannot be told
apart from the internal error. -/
theorem C1_duplicate_answered_as_store_failure :
    (signUpHandler sampleBcrypt (some 2) none aliceStore (post "alice" "pw2")).2.resp =
      (signUpHandler sampleBcrypt (some 2) (some "unable to open database file") []
        (post "bob" "pw2")).2.resp ∧
    (signUpHandler sampleBcrypt (some 2) none aliceStore (post "alice" "pw2")).2.resp =
      { status := 500, body := "Error saving user\n" } := by
  decide

/-- C1, amended.  For every store that already holds a record for username
`u` and every POST sign-up with well-formed JSON carrying `u`, the handler
leaves the store unchanged and answers with status 500; when hashing
succeeds the response is 500 "Error saving user", the very response it gives
for any request with the same credentials when the store is unavailable. -/
theorem C1_duplicate_username_is_internal_error (B : Bcrypt) (rng : Entropy)
    (fault : Option String) (db : DB) (u p : String)
    (hdup : ∃ row ∈ db, row.username = u) :
    (signUpHandler B rng fault db (post u p)).1 = db ∧
    (signUpHandler B rng fault db (post u p)).2.resp.status = StatusInternalServerError ∧
    ((hashPassword B rng p).2 = none →
      (signUpHandler B rng fault db (post u p)).2.resp =
        httpError "Error saving user" StatusInternalServerError ∧
      ∀ (msg : String) (db2 : DB),
        (signUpHandler B rng (some msg) db2 (post u p)).2.resp =
          (signUpHandler B rng fault db (post u p)).2.resp) := by
  have hany : db.any (fun row => row.username == u) = true := by
    rcases hdup with ⟨row, hrow, hru⟩
    exact List.any_eq_true.2 ⟨row, hrow, by simp [hru]⟩
  have hsave : ∀ (f : Option String) (d : DB),
      (f = none → d.any (fun row => row.username == u) = true) →
      (hashPassword B rng p).2 = none →
      (signUpHandler B rng f d (post u p)).1 = d ∧
      (signUpHandler B rng f d (post u p)).2.resp =
        httpError "Error saving user" StatusInternalServerError := by
    intro f d hfd hh
    rw [signUpHandler_hashed B rng f d (post u p) ⟨u, p⟩ rfl rfl hh]
    rcases dbExecInsert_cases f d u (hashPassword B rng p).1 with
      ⟨e, he, _⟩ | ⟨hf, hfresh, _⟩
    · rw [he]; exact ⟨rfl, rfl⟩
    · rw [hfd hf] at hfresh; cases hfresh
  cases hh : (hashPassword B rng p).2 with
  | some e =>
    rw [signUpHandler_hash_error B rng fault db (post u p) ⟨u, p⟩ e rfl rfl hh]
    exact ⟨rfl, rfl, fun h => by cases h⟩
  | none =>
    have h1 := hsave fault db (fun _ => hany) hh
    refine ⟨h1.1, by rw [h1.2]; rfl, fun _ => ⟨h1.2, fun msg db2 => ?_⟩⟩
    rw [h1.2, (hsave (some msg) db2 (fun h => by cases h) hh).2]

/-- C1, the amended claim at a concrete input: "alice" signs up twice. -/
theorem C1_duplicate_username_witness :
    (signUpHandler sampleBcrypt (some 2) none aliceStore (post "alice" "pw2")).1 =
      aliceStore ∧
    (signUpHandler sampleBcrypt (some 2) none aliceStore
      (post "alice" "pw2")).2.resp.status = StatusInternalServerError :=
  ⟨(C1_duplicate_username_is_internal_error sampleBcrypt (some 2) none aliceStore
      "alice" "pw2" ⟨⟨"alice", "h1"⟩, by decide, rfl⟩).1,
   (C1_duplicate_username_is_internal_error sampleBcrypt (some 2) none aliceStore
      "alice" "pw2" ⟨⟨"alice", "h1"⟩, by decide, rfl⟩).2.1⟩

/-- C2, counterexample.  On the table where "alice" signed up with "pw1", a
login for the unknown "ghost" and a login for "alice" with the wrong password
"pw2" get different responses: 404 "User not found" and 401 "Invalid
credentials". -/
theorem C2_absent_user_and_wrong_password_differ :
    lookup aliceSignedUp "ghost" = none ∧
    (∃ h, lookup aliceSignedUp "alice" = some h ∧
      checkPasswordHash sampleBcrypt "pw2" h = false) ∧
    (loginHandler sampleBcrypt none aliceSignedUp (post "ghost" "pw2")).2.resp =
      { status := 404, body := "User not found\n" } ∧
    (loginHandler sampleBcrypt none aliceSignedUp (post "alice" "pw2")).2.resp =
      { status := 401, body := "Invalid credentials\n" } ∧
    (loginHandler sampleBcrypt none aliceSignedUp (post "ghost" "pw2")).2.resp ≠
      (loginHandler sampleBcrypt none aliceSignedUp (post "alice" "pw2")).2.resp := by
  refine ⟨by decide, ⟨_, rfl, by decide⟩, by decide, by decide, by decide⟩

/-- C2, amended.  For every store whose lookups succeed and every pair of POST
login requests, one naming a username without a record and one naming an
existing username with a password that does not verify against its stored
hash, the handler answers the first with 404 "User not found" and the second
with 401 "Invalid credentials"; the two differ in status code and in
message. -/
theorem C2_login_failures_are_distinguishable (B : Bcrypt) (db : DB)
    (u p u' p' h : String) (habsent : lookup db u = none)
    (hpresent : lookup db u' = some h) (hwrong : checkPasswordHash B p' h = false) :
    (loginHandler B none db (post u p)).2.resp =
      httpError "User not found" StatusNotFound ∧
    (loginHandler B none db (post u' p')).2.resp =
      httpError "Invalid credentials" StatusUnauthorized ∧
    (loginHandler B none db (post u p)).2.resp.status ≠
      (loginHandler B none db (post u' p')).2.resp.status ∧
    (loginHandler B none db (post u p)).2.resp.body ≠
      (loginHandler B none db (post u' p')).2.resp.body := by
  rw [loginHandler_post, loginHandler_post, habsent, hpresent]
  simp [hwrong, httpError, StatusNotFound, StatusUnauthorized]

/-- C2, the amended claim at a concrete input. -/
theorem C2_login_failures_witness :
    (loginHandler sampleBcrypt none aliceStore (post "ghost" "pw")).2.resp =
      httpError "User not found" StatusNotFound ∧
    (loginHandler sampleBcrypt none aliceStore (post "alice" "pw")).2.resp =
      httpError "Invalid credentials" StatusUnauthorized :=
  ⟨(C2_login_failures_are_distinguishable sampleBcrypt aliceStore "ghost" "pw" "alice"
      "pw" "h1" (by decide) (by decide) (by decide)).1,
   (C2_login_failures_are_distinguishable sampleBcrypt aliceStore "ghost" "pw" "alice"
      "pw" "h1" (by decide) (by decide) (by decide)).2.1⟩

/-- C3, counterexample.  On the empty table a sign-up with empty username and
one with empty password are both answered 201 Created, and each inserts a
record. -/
theorem C3_empty_credentials_are_registered :
    (signUpHandler sampleBcrypt (some 1) none [] (post "" "pw")).2.resp =
      { status := 201, body := "User  created successfully" } ∧
    ((signUpHandler sampleBcrypt (some 1) none [] (post "" "pw")).1.map Row.username) =
      [""] ∧
    (signUpHandler sampleBcrypt (some 1) none [] (post "bob" "")).2.resp =
      { status := 201, body := "User bob created successfully" } ∧
    ((signUpHandler sampleBcrypt (some 1) none [] (post "bob" "")).1.map Row.username) =
      ["bob"] := by
  decide

/-- C3, amended.  For every store and every sign-up request (POST,
well-formed JSON) whose username is empty or whose password is empty, the
handler applies no presence check and never answers 400: it answers 201 and
appends the record (username, hash) when hashing succeeds, the engine reports
no fault and no record has that username, and otherwise it answers 500 and
the store after the request equals the store before it. -/
theorem C3_no_presence_check (B : Bcrypt) (rng : Entropy) (fault : Option String)
    (db : DB) (u p : String) (_hempty : u = "" ∨ p = "") :
    (signUpHandler B rng fault db (post u p)).2.resp.status ≠ StatusBadRequest ∧
    (((hashPassword B rng p).2 = none ∧ fault = none ∧
        db.any (fun row => row.username == u) = false) ∧
      signUpHandler B rng fault db (post u p) =
        (db ++ [{ username := u, password := (hashPassword B rng p).1 }],
         { resp := { status := StatusCreated,
                     body := "User " ++ u ++ " created successfully" },
           log := [] }) ∨
     (¬ ((hashPassword B rng p).2 = none ∧ fault = none ∧
          db.any (fun row => row.username == u) = false) ∧
      (signUpHandler B rng fault db (post u p)).1 = db ∧
      (signUpHandler B rng fault db (post u p)).2.resp.status =
        StatusInternalServerError)) := by
  cases hh : (hashPassword B rng p).2 with
  | some e =>
    rw [signUpHandler_hash_error B rng fault db (post u p) ⟨u, p⟩ e rfl rfl hh]
    exact ⟨by simp [httpError, StatusInternalServerError, StatusBadRequest],
      Or.inr ⟨(fun h => by cases h.1), rfl, rfl⟩⟩
  | none =>
    rw [signUpHandler_hashed B rng fault db (post u p) ⟨u, p⟩ rfl rfl hh]
    rcases dbExecInsert_cases fault db u (hashPassword B rng p).1 with
      ⟨e, he, hdup⟩ | ⟨hf, hfresh, he⟩
    · rw [he]
      refine ⟨by simp [httpError, StatusInternalServerError, StatusBadRequest],
        Or.inr ⟨?_, rfl, rfl⟩⟩
      rintro ⟨_, hf, hfresh⟩
      rw [hdup hf] at hfresh
      cases hfresh
    · rw [he]
      exact ⟨by simp [StatusCreated, StatusBadRequest], Or.inl ⟨⟨rfl, hf, hfresh⟩, rfl⟩⟩

/-- C3, the amended claim at a concrete input: an empty username. -/
theorem C3_no_presence_check_witness :
    (signUpHandler sampleBcrypt (some 1) none [] (post "" "pw")).2.resp.status ≠
      StatusBadRequest :=
  (C3_no_presence_check sampleBcrypt (some 1) none [] "" "pw" (Or.inl rfl)).1

/-- C4.  Username uniqueness is an invariant of the store: in every state
reached from the empty store by a finite sequence of sign-up and login
requests no two records share a username; and when in such a state a sign-up
of `u` with password `pw1` succeeds and a sign-up of `u` with password `pw2`
follows, the second is refused and the store holds exactly one record for
`u`, carrying the hash produced for `pw1`. -/
theorem C4_usernames_are_unique (B : Bcrypt) :
    (∀ calls : List Call, ((run B [] calls).map Row.username).Nodup) ∧
    (∀ (calls : List Call) (rng1 rng2 : Entropy) (fault1 fault2 : Option String)
        (u pw1 pw2 : String),
      (signUpHandler B rng1 fault1 (run B [] calls) (post u pw1)).2.resp.status =
          StatusCreated →
      (signUpHandler B rng2 fault2
          (signUpHandler B rng1 fault1 (run B [] calls) (post u pw1)).1
          (post u pw2)).2.resp.status = StatusInternalServerError ∧
      (signUpHandler B rng2 fault2
          (signUpHandler B rng1 fault1 (run B [] calls) (post u pw1)).1
          (post u pw2)).1.filter (fun row => row.username == u) =
        [{ username := u, password := (hashPassword B rng1 pw1).1 }]) := by
  refine ⟨fun calls => run_nodup B calls [] (by simp), ?_⟩
  intro calls rng1 rng2 fault1 fault2 u pw1 pw2 hcreated
  generalize run B [] calls = db0 at hcreated ⊢
  rcases signUpHandler_cases B rng1 fault1 db0 (post u pw1) with
    ⟨_, hst⟩ | ⟨user, _, hbody, _, _, hfresh, he⟩
  · rw [hcreated] at hst
    exact absurd hst (by decide)
  · have huser : user = ⟨u, pw1⟩ := by
      simp only [post, Option.some.injEq] at hbody
      exact hbody.symm
    subst huser
    simp only at hfresh he
    rw [he]
    simp only
    have hdup : ∃ row ∈ db0 ++ [{ username := u, password := (hashPassword B rng1 pw1).1 }],
        row.username = u :=
      ⟨_, List.mem_append_right _ (List.mem_singleton_self _), rfl⟩
    have h2 := signUpHandler_taken B rng2 fault2 _ u pw2 hdup
    rw [h2.1]
    refine ⟨h2.2, ?_⟩
    rw [List.filter_append]
    have hnil : db0.filter (fun row => row.username == u) = [] := by
      rw [List.filter_eq_nil_iff]
      intro row hrow hru
      have : db0.any (fun row => row.username == u) = true :=
        List.any_eq_true.2 ⟨row, hrow, hru⟩
      rw [hfresh] at this
      cases this
    rw [hnil]
    simp [List.filter]

/-- C4 at a concrete input: "alice" signs up with "pw1" on the empty store,
then with "pw2". -/
theorem C4_alice_signs_up_twice :
    (signUpHandler sampleBcrypt (some 2) none
        (signUpHandler sampleBcrypt (some 1) none (run sampleBcrypt [] []) (post "alice" "pw1")).1
        (post "alice" "pw2")).1.filter (fun row => row.username == "alice") =
      [{ username := "alice",
         password := (hashPassword sampleBcrypt (some 1) "pw1").1 }] :=
  ((C4_usernames_are_unique sampleBcrypt).2 [] (some 1) (some 2) none none
    "alice" "pw1" "pw2" (by decide)).2

/-- C5, counterexample.  For the 73-byte plaintext the hasher refuses to hash,
`hashPassword` returns the empty string next to its error, and
`checkPasswordHash` of the plaintext against that string is false. -/
theorem C5_overlong_plaintext_does_not_verify :
    hashPassword sampleBcrypt (some 0) longPassword =
      ("", some "password length exceeds the maximum input length") ∧
    checkPasswordHash sampleBcrypt longPassword
      (hashPassword sampleBcrypt (some 0) longPassword).1 = false := by
  decide

/-- C5, amended.  For all plaintexts `p` for which `hashPassword(p)` returns no
error, `checkPasswordHash(p, h)` is true, where `h` is the string returned by
`hashPassword(p)`; this holds whatever the one-way function and whatever salt
was drawn. -/
theorem C5_hash_then_check (digest : Digest) (rng : Entropy) (p : String)
    (hok : (hashPassword (specBcrypt digest) rng p).2 = none) :
    checkPasswordHash (specBcrypt digest) p
      (hashPassword (specBcrypt digest) rng p).1 = true := by
  have hg : specGenerateFromPassword digest p costFactor rng =
      ((hashPassword (specBcrypt digest) rng p).1, none) := by
    rw [← hok]
    rfl
  have := specCompare_specGenerate digest p costFactor rng _ hg
  simp only [checkPasswordHash, specBcrypt] at this ⊢
  rw [this]
  rfl

/-- C5, the amended claim at a concrete input: the plaintext "pw1". -/
theorem C5_hash_then_check_witness :
    checkPasswordHash sampleBcrypt "pw1" (hashPassword sampleBcrypt (some 7) "pw1").1 =
      true :=
  C5_hash_then_check sampleDigest (some 7) "pw1" (by decide)

/-- C6.  `checkPasswordHash` returns a boolean for every plaintext and every
stored hash; it is true exactly when the comparison reports no error and
false whenever the comparison reports any error; and the login handler gives
one and the same answer, 401 "Invalid credentials", to any two requests whose
stored hashes fail the comparison, whatever the errors were (a malformed
stored hash, a digest mismatch). -/
theorem C6_check_is_total (B : Bcrypt) (password hash : String) :
    (checkPasswordHash B password hash = true ↔
      B.CompareHashAndPassword hash password = none) ∧
    (∀ e, B.CompareHashAndPassword hash password = some e →
      checkPasswordHash B password hash = false) ∧
    (∀ (db db' : DB) (u u' p' h' e e' : String),
      lookup db u = some hash → B.CompareHashAndPassword hash password = some e →
      lookup db' u' = some h' → B.CompareHashAndPassword h' p' = some e' →
      (loginHandler B none db (post u password)).2.resp =
        httpError "Invalid credentials" StatusUnauthorized ∧
      (loginHandler B none db (post u password)).2.resp =
        (loginHandler B none db' (post u' p')).2.resp) := by
  refine ⟨?_, ?_, ?_⟩
  · simp [checkPasswordHash]
  · intro e he
    simp [checkPasswordHash, he]
  · intro db db' u u' p' h' e e' hl he hl' he'
    have hc : checkPasswordHash B password hash = false := by
      simp [checkPasswordHash, he]
    have hc' : checkPasswordHash B p' h' = false := by
      simp [checkPasswordHash, he']
    rw [loginHandler_post, loginHandler_post, hl, hl']
    simp [hc, hc']

/-- C6 at a concrete input: a record whose stored hash is the empty string is
answered like a record with a well-formed hash and the wrong password. -/
theorem C6_malformed_hash_witness :
    (loginHandler sampleBcrypt none [{ username := "eve", password := "" }]
        (post "eve" "pw")).2.resp =
      (loginHandler sampleBcrypt none aliceSignedUp (post "alice" "pw2")).2.resp :=
  ((C6_check_is_total sampleBcrypt "pw" "").2.2
    [{ username := "eve", password := "" }] aliceSignedUp "eve" "alice" "pw2"
    (hashPassword sampleBcrypt (some 1) "pw1").1 "malformed hash: header"
    "hashedPassword is not the hash of the given password"
    (by decide) (by decide) (by decide) (by decide)).2

/-- C7.  Sign-up is atomic: for every store and every request the handler
either answers 201 and the resulting store is the previous store plus exactly
one record, made of the request's username and the string `hashPassword`
returned for the request's password, or it answers with another status and
the resulting store equals the previous one.  The second case is the one
taken on a wrong method, on undecodable JSON, on a hashing failure and on an
insert failure. -/
theorem C7_sign_up_is_atomic (B : Bcrypt) (rng : Entropy) (fault : Option String)
    (db : DB) (r : Request) :
    (((signUpHandler B rng fault db r).2.resp.status = StatusCreated ∧
        ∃ user, r.Body = some user ∧
          (signUpHandler B rng fault db r).1 =
            db ++ [{ username := user.Username,
                     password := (hashPassword B rng user.Password).1 }]) ∨
      ((signUpHandler B rng fault db r).2.resp.status ≠ StatusCreated ∧
        (signUpHandler B rng fault db r).1 = db)) ∧
    ((r.Method ≠ MethodPost ∨ r.Body = none ∨
        ∃ user, r.Body = some user ∧
          ((hashPassword B rng user.Password).2 ≠ none ∨
            (dbExecInsert fault db user.Username
              (hashPassword B rng user.Password).1).2 ≠ none)) →
      (signUpHandler B rng fault db r).2.resp.status ≠ StatusCreated ∧
      (signUpHandler B rng fault db r).1 = db) := by
  have hne : ∀ s : Nat, (s = StatusMethodNotAllowed ∨ s = StatusBadRequest ∨
      s = StatusInternalServerError) → s ≠ StatusCreated := by
    rintro s (h | h | h) <;> subst h <;> decide
  rcases signUpHandler_cases B rng fault db r with
    ⟨hs, hst⟩ | ⟨user, hm, hbody, hh, hf, hfresh, he⟩
  · exact ⟨Or.inr ⟨hne _ hst, hs⟩, fun _ => ⟨hne _ hst, hs⟩⟩
  · refine ⟨Or.inl ⟨by rw [he], user, hbody, by rw [he]⟩, ?_⟩
    rintro (hm' | hb' | ⟨user', hbody', hh' | hi'⟩)
    · exact absurd hm hm'
    · rw [hbody] at hb'; cases hb'
    · rw [hbody] at hbody'; cases hbody'
      exact absurd hh hh'
    · rw [hbody] at hbody'; cases hbody'
      subst hf
      rw [dbExecInsert_fresh db _ _ hfresh] at hi'
      exact absurd rfl hi'

/-- C7 at a concrete input: a GET request leaves the store as it was. -/
theorem C7_wrong_method_witness :
    (signUpHandler sampleBcrypt (some 1) none aliceStore
        { Method := "GET", Body := some { Username := "bob", Password := "pw" } }).1 =
      aliceStore :=
  ((C7_sign_up_is_atomic sampleBcrypt (some 1) none aliceStore
    { Method := "GET", Body := some { Username := "bob", Password := "pw" } }).2
    (Or.inl (by decide))).2

/-- C8.  A record, once present, is terminal: for every store and every
request handled by the sign-up handler (any method, any body), every record
of the store is still in the store after the request, and every username
that had a stored hash still has that same hash; the login handler leaves the
whole store unchanged. -/
theorem C8_records_are_terminal (B : Bcrypt) (rng : Entropy) (fault : Option String)
    (db : DB) (r : Request) :
    (∀ row ∈ db, row ∈ (signUpHandler B rng fault db r).1) ∧
    (∀ u h, lookup db u = some h →
      lookup (signUpHandler B rng fault db r).1 u = some h) ∧
    (loginHandler B fault db r).1 = db := by
  refine ⟨?_, ?_, loginHandler_store B fault db r⟩
  · intro row hrow
    rcases signUpHandler_cases B rng fault db r with ⟨hs, _⟩ | ⟨user, _, _, _, _, _, he⟩
    · rw [hs]; exact hrow
    · rw [he]; exact List.mem_append_left _ hrow
  · intro u h hl
    rcases signUpHandler_cases B rng fault db r with ⟨hs, _⟩ | ⟨user, _, _, _, _, _, he⟩
    · rw [hs]; exact hl
    · rw [he]; exact lookup_append_of_some db _ u h hl

/-- C8 at a concrete input: after "bob" signs up, "alice" still has her
hash. -/
theorem C8_records_are_terminal_witness :
    lookup (signUpHandler sampleBcrypt (some 3) none aliceStore (post "bob" "pw")).1
      "alice" = some "h1" :=
  (C8_records_are_terminal sampleBcrypt (some 3) none aliceStore (post "bob" "pw")).2.1
    "alice" "h1" (by decide)

/-- C10.  For every store whose lookups succeed and every POST login request
with decodable JSON (username `u`, password `p`), the handler responds 200
with body "Welcome, u!" if and only if the store has a record for `u` and
`checkPasswordHash` of `p` against the stored hash of `u` is true; it
responds 404 when there is no record for `u` and 401 when the record exists
but the check is false; and when the record is absent the outcome does not
depend on the comparison function at all. -/
theorem C10_login_outcomes (B : Bcrypt) (db : DB) (u p : String) :
    ((loginHandler B none db (post u p)).2.resp =
        { status := StatusOK, body := "Welcome, " ++ u ++ "!" } ↔
      ∃ h, lookup db u = some h ∧ checkPasswordHash B p h = true) ∧
    ((loginHandler B none db (post u p)).2.resp.status = StatusOK ↔
      ∃ h, lookup db u = some h ∧ checkPasswordHash B p h = true) ∧
    (lookup db u = none →
      (loginHandler B none db (post u p)).2.resp.status = StatusNotFound) ∧
    (∀ h, lookup db u = some h → checkPasswordHash B p h = false →
      (loginHandler B none db (post u p)).2.resp.status = StatusUnauthorized) ∧
    (lookup db u = none →
      ∀ B' : Bcrypt, loginHandler B' none db (post u p) = loginHandler B none db (post u p)) := by
  have hE := loginHandler_post B db u p
  cases hl : lookup db u with
  | none =>
    rw [hl] at hE
    refine ⟨?_, ?_, ?_, ?_, ?_⟩
    · simp [hE, httpError, StatusNotFound, StatusOK]
    · simp [hE, httpError, StatusNotFound, StatusOK]
    · intro _; rw [hE]; rfl
    · intro h hh; cases hh
    · intro _ B'
      rw [hE, loginHandler_post, hl]
  | some h =>
    rw [hl] at hE
    cases hc : checkPasswordHash B p h with
    | true =>
      simp only [hc, if_true] at hE
      refine ⟨?_, ?_, ?_, ?_, ?_⟩
      · simp [hE, hc]
      · simp [hE, hc]
      · intro hh; cases hh
      · intro h' hh' hc'
        cases hh'
        rw [hc] at hc'
        cases hc'
      · intro hh; cases hh
    | false =>
      simp only [hc, Bool.false_eq_true, if_false] at hE
      refine ⟨?_, ?_, ?_, ?_, ?_⟩
      · simp [hE, hc, httpError, StatusUnauthorized, StatusOK]
      · simp [hE, hc, httpError, StatusUnauthorized, StatusOK]
      · intro hh; cases hh
      · intro _ _ _; rw [hE]; rfl
      · intro hh; cases hh

/-- C10 at a concrete input: "alice" logs in with the password she signed up
with, and is not welcomed with another. -/
theorem C10_login_outcomes_witness :
    (loginHandler sampleBcrypt none aliceSignedUp (post "alice" "pw2")).2.resp.status =
      StatusUnauthorized :=
  (C10_login_outcomes sampleBcrypt aliceSignedUp "alice" "pw2").2.2.2.1
    (hashPassword sampleBcrypt (some 1) "pw1").1 (by decide) (by decide)

end KissanChain
